import Mathlib

set_option autoImplicit false

/-!
Shallow embedding of the Meshtastic module-dispatch core declared in
src/src/mesh/MeshPlugin.h (class MeshPlugin and the free helper setReplyTo).

The repository ships only the header: enum values, policy-field defaults,
the default bodies of handleReceived, wantUIFrame and
handleAdminMessageForModule, and the default source argument of callPlugins
are taken from the header itself.  The bodies of callPlugins, sendResponse,
setReplyTo, allocReply, allocAckNak, allocErrorResponse,
GetMeshModulesWithUIFrames and handleAdminMessageForAllPlugins are not under
src; those definitions are modelled from the specification and say so in
their doc comments.
-/

/-- handleReceived return enumeration (MeshPlugin.h lines 18-22):
CONTINUE lets other modules process a message, STOP stops further
message processing. -/
inductive ProcessMessage where
  | CONTINUE
  | STOP
deriving DecidableEq

/-- Result of AdminMessage handling (MeshPlugin.h lines 30-35): HANDLED when
the request was handled, HANDLED_WITH_RESPONSE when a response was also
prepared, NOT_HANDLED otherwise. -/
inductive AdminMessageHandleResult where
  | NOT_HANDLED
  | HANDLED
  | HANDLED_WITH_RESPONSE
deriving DecidableEq

/-- UIFrameEvent flag pair (MeshPlugin.h lines 40-43), used by Screen to
decide whether a frame should be updated. -/
structure UIFrameEvent where
  frameChanged : Bool
  needRedraw : Bool
deriving DecidableEq

/-- Modelled from the spec: RxSource is declared in mesh/MeshTypes.h, which is
not under src; the spec (sections 4.2 and 6) distinguishes radio-origin
packets from locally injected (loopback) packets. -/
inductive RxSource where
  | RX_SRC_RADIO
  | RX_SRC_LOCAL
deriving DecidableEq

/-- Modelled from the spec: MeshPacket is declared in mesh/MeshTypes.h
(protobuf), not under src; spec section 3 lists destination, source, channel
index, port number, want-response flag, reliability flag, identifier and
payload, and the acceptance policy also consults whether the packet is still
encrypted. -/
structure MeshPacket where
  «to» : Nat
  «from» : Nat
  id : Nat
  channel : Nat
  portnum : Nat
  want_response : Bool
  want_ack : Bool
  encrypted : Bool
  payload : Nat
deriving DecidableEq

/-- Modelled from the spec: AdminMessage is an external protobuf envelope, not
under src; spec section 3 treats the request as read-only during broadcast, so
its contents stay abstract here. -/
structure AdminMessage where
  payload : Nat := 0
deriving DecidableEq

/-- Per-module mutable state: the pending-reply field myReply
(MeshPlugin.h line 115, default NULL) plus an abstract private-state
component standing for whatever private data a concrete module keeps. -/
structure ModState where
  myReply : Option MeshPacket := none
  privState : Nat := 0
deriving DecidableEq

/-- A mesh module (MeshPlugin.h class MeshPlugin).  The policy fields and
their defaults are MeshPlugin.h lines 85-101; virtual methods that have a
default body in the header are modelled as Option-valued overrides, none
meaning the concrete module did not override the method. -/
structure MeshPlugin where
  name : String
  isPromiscuous : Bool := false
  loopbackOk : Bool := false
  encryptedOk : Bool := false
  boundChannel : Option String := none
  wantPacket : MeshPacket → Bool
  handleReceivedImpl : Option (ModState → MeshPacket → ModState × ProcessMessage) := none
  allocReplyImpl : Option (ModState → Option MeshPacket) := none
  wantUIFrame : Bool := false
  handleAdminMessageForModuleImpl :
    Option (MeshPacket → AdminMessage → AdminMessage → AdminMessageHandleResult) := none

/-- handleReceived with the header default body: return
ProcessMessage::CONTINUE and do nothing else (MeshPlugin.h line 132); an
override runs the module's own handler on its state. -/
def MeshPlugin.handleReceived (m : MeshPlugin) (st : ModState) (mp : MeshPacket) :
    ModState × ProcessMessage :=
  match m.handleReceivedImpl with
  | some f => f st mp
  | none => (st, ProcessMessage.CONTINUE)

/-- Modelled from the spec: the body of MeshPlugin::allocReply is not under
src (MeshPlugin.h line 140 only declares it); spec section 4.1: the default
returns the pending-reply field if one was set, else none; an override runs
the module's own allocator. -/
def MeshPlugin.allocReply (m : MeshPlugin) (st : ModState) : Option MeshPacket :=
  match m.allocReplyImpl with
  | some f => f st
  | none => st.myReply

/-- handleAdminMessageForModule with the header default body: return
AdminMessageHandleResult::NOT_HANDLED (MeshPlugin.h lines 163-164). -/
def MeshPlugin.handleAdminMessageForModule (m : MeshPlugin) (mp : MeshPacket)
    (request response : AdminMessage) : AdminMessageHandleResult :=
  match m.handleAdminMessageForModuleImpl with
  | some f => f mp request response
  | none => AdminMessageHandleResult.NOT_HANDLED

/-- Modelled from the spec: the node identity and the channel table live in
external collaborators (mesh/MeshTypes.h, mesh/Channels.h), not under src; the
dispatcher needs this node's address, the name of a channel index (to match
against boundChannel) and a fresh packet identifier for replies. -/
structure DispatchEnv where
  ourNode : Nat
  channelName : Nat → String
  freshId : Nat

/-- Modelled from the spec: the broadcast destination address from
mesh/MeshTypes.h, not under src; spec section 4.2 rule 4 counts a broadcast
as addressed to this node. -/
def NODENUM_BROADCAST : Nat := 0xffffffff

/-- Modelled from the spec: spec section 4.2 rule 4, a packet is addressed to
this node when it is a broadcast or an explicit match of our node number. -/
def addressedToUs (env : DispatchEnv) (p : MeshPacket) : Bool :=
  p.«to» == NODENUM_BROADCAST || p.«to» == env.ourNode

/-- Channel-binding mismatch: MeshPlugin.h lines 95-101, a module with a
bound channel name only accepts packets arriving on that channel; true when
the module binds a channel and the packet's channel has a different name. -/
def channelMismatch (env : DispatchEnv) (m : MeshPlugin) (p : MeshPacket) : Bool :=
  match m.boundChannel with
  | none => false
  | some ch => !(ch == env.channelName p.channel)

/-- Modelled from the spec: the acceptance policy of the packet dispatcher,
spec section 4.2 rules 1-5 (the body of MeshPlugin::callPlugins is not under
src).  Rule 1: skip a locally originated packet unless loopbackOk.  Rule 2:
skip an encrypted packet unless encryptedOk.  Rule 3: skip on bound-channel
mismatch, except that packets arriving over the local interface are exempt
from channel binding.  Rule 4: skip a packet not addressed to this node
unless promiscuous.  Rule 5: ask wantPacket. -/
def moduleAccepts (env : DispatchEnv) (m : MeshPlugin) (p : MeshPacket)
    (src : RxSource) : Bool :=
  !(src == RxSource.RX_SRC_LOCAL && !m.loopbackOk) &&
  !(p.encrypted && !m.encryptedOk) &&
  !(channelMismatch env m p && !(src == RxSource.RX_SRC_LOCAL)) &&
  !(!(addressedToUs env p) && !m.isPromiscuous) &&
  m.wantPacket p

/-- Modelled from the spec: the body of setReplyTo is not under src
(MeshPlugin.h line 185 only declares it); spec section 4.3: destination =
request source, source = this node, channel = request channel, reliability =
request reliability, and a fresh packet identifier is allocated; the header
comment adds that a reliably sent request gets a reliable reply. -/
def setReplyTo (env : DispatchEnv) (p : MeshPacket) («to» : MeshPacket) : MeshPacket :=
  { p with
    «to» := «to».«from»
    «from» := env.ourNode
    channel := «to».channel
    want_ack := «to».want_ack
    id := env.freshId }

/-- Modelled from the spec: the body of MeshPlugin::allocAckNak is not under
src (MeshPlugin.h line 148 only declares it); spec section 4.3: a builder
producing a minimal ack/nak packet carrying the routing error code, addressed
to the given node on the given channel, acknowledging the given packet id; it
does not enqueue transmission. -/
def MeshPlugin.allocAckNak (err : Nat) («to» : Nat) (idFrom : Nat)
    (chIndex : Nat) : MeshPacket :=
  { «to» := «to», «from» := 0, id := idFrom, channel := chIndex, portnum := 0,
    want_response := false, want_ack := false, encrypted := false, payload := err }

/-- Modelled from the spec: the body of MeshPlugin::allocErrorResponse is not
under src (MeshPlugin.h line 151 only declares it); spec section 4.3: a
builder producing a typed error-response packet for p carrying the routing
error code; it does not enqueue transmission. -/
def MeshPlugin.allocErrorResponse (err : Nat) (p : MeshPacket) : MeshPacket :=
  { «to» := p.«from», «from» := 0, id := 0, channel := p.channel, portnum := 0,
    want_response := false, want_ack := false, encrypted := false, payload := err }

/-- Modelled from the spec: the body of MeshPlugin::sendResponse is not under
src (MeshPlugin.h line 179 only declares it); spec section 4.3: call
allocReply on the handling module and address the produced packet via
setReplyTo; if Current Reply already holds a packet from an earlier module in
the same chain, no new reply is synthesized and the existing one is sent.
Returns the Current Reply slot after the call and whether a new packet was
synthesized. -/
def MeshPlugin.sendResponse (m : MeshPlugin) (env : DispatchEnv) (st : ModState)
    (currentReply : Option MeshPacket) (req : MeshPacket) :
    Option MeshPacket × Bool :=
  match currentReply with
  | some r => (some r, false)
  | none =>
    match m.allocReply st with
    | some p => (some (setReplyTo env p req), true)
    | none => (none, false)

/-- Outcome of walking the registry for one packet: the registry with updated
module states, the indices (into the registry, in order) whose handleReceived
ran, the index the reply protocol would use (the last handler, or the module
that stopped the chain), and the index that returned ProcessMessage::STOP, if
any. -/
structure ChainOut where
  registry : List (MeshPlugin × ModState)
  invoked : List Nat
  lastHandler : Option Nat
  stopper : Option Nat

/-- Modelled from the spec: the dispatch loop of MeshPlugin::callPlugins
(body not under src); spec section 4.2: visit modules in registration order,
invoke handleReceived on each accepted module, terminate the loop immediately
when a module returns STOP. -/
def runChain (env : DispatchEnv) (p : MeshPacket) (src : RxSource) :
    List (MeshPlugin × ModState) → ChainOut
  | [] => ⟨[], [], none, none⟩
  | (m, st) :: rest =>
    if moduleAccepts env m p src then
      let pr := m.handleReceived st p
      if pr.2 = ProcessMessage.STOP then
        ⟨(m, pr.1) :: rest, [0], some 0, some 0⟩
      else
        let o := runChain env p src rest
        ⟨(m, pr.1) :: o.registry, 0 :: o.invoked.map (· + 1),
          some ((o.lastHandler.map (· + 1)).getD 0),
          o.stopper.map (· + 1)⟩
    else
      let o := runChain env p src rest
      ⟨(m, st) :: o.registry, o.invoked.map (· + 1),
        o.lastHandler.map (· + 1), o.stopper.map (· + 1)⟩

/-- Outcome of MeshPlugin::callPlugins: the updated registry, the
handleReceived invocation trace, the indices whose allocReply was consulted,
and the reply packets handed to the external routing layer. -/
structure CallOut where
  registry : List (MeshPlugin × ModState)
  invoked : List Nat
  allocReplyCalled : List Nat
  replies : List MeshPacket

/-- Modelled from the spec: the reply step run by MeshPlugin::callPlugins
after the dispatch loop; spec section 4.2: if the packet wants a response,
invoke the reply protocol exactly once using the module that last handled the
packet (or the module that stopped the chain), with an empty Current Reply
slot. -/
def replyStep (env : DispatchEnv) (mp : MeshPacket) (o : ChainOut) : CallOut :=
  if mp.want_response then
    match o.lastHandler with
    | some j =>
      match o.registry.get? j with
      | some (m, st) =>
        let res := m.sendResponse env st none mp
        ⟨o.registry, o.invoked, [j], res.1.toList⟩
      | none => ⟨o.registry, o.invoked, [], []⟩
    | none => ⟨o.registry, o.invoked, [], []⟩
  else
    ⟨o.registry, o.invoked, [], []⟩

/-- Modelled from the spec: the body of MeshPlugin::callPlugins is not under
src (MeshPlugin.h line 69 only declares it); spec section 4.2: walk the
registry with runChain, then run the reply step on the outcome. -/
def callPlugins (env : DispatchEnv) (mods : List (MeshPlugin × ModState))
    (mp : MeshPacket) (src : RxSource) : CallOut :=
  replyStep env mp (runChain env mp src mods)

/-- MeshPlugin.h line 69 declares callPlugins with the default source
argument RX_SRC_RADIO: a call site that omits the source dispatches the
packet as radio-originated. -/
def callPluginsDefault (env : DispatchEnv) (mods : List (MeshPlugin × ModState))
    (mp : MeshPacket) : CallOut :=
  callPlugins env mods mp RxSource.RX_SRC_RADIO

/-- Modelled from the spec: spec section 3 allows several modules of one
chain to attempt a reply against the shared Current Reply slot; fold
sendResponse over the attempting modules, counting how many reply packets are
newly synthesized. -/
def replyChain (env : DispatchEnv) (req : MeshPacket) :
    List (MeshPlugin × ModState) → Option MeshPacket → Option MeshPacket × Nat
  | [], cur => (cur, 0)
  | (m, st) :: rest, cur =>
    let a := m.sendResponse env st cur req
    let b := replyChain env req rest a.1
    (b.1, (if a.2 then 1 else 0) + b.2)

/-- Modelled from the spec: the body of
MeshPlugin::GetMeshModulesWithUIFrames is not under src (MeshPlugin.h line 71
only declares it); spec section 4.5: the ordered subset of the registry whose
wantUIFrame() is true. -/
def GetMeshModulesWithUIFrames (mods : List MeshPlugin) : List MeshPlugin :=
  mods.filter (fun m => m.wantUIFrame)

/-- Modelled from the spec: the body of
MeshPlugin::handleAdminMessageForAllPlugins is not under src (MeshPlugin.h
lines 73-74 only declare it); spec section 4.4: offer the request to each
module in registration order, stop at the first module returning HANDLED or
HANDLED_WITH_RESPONSE (first-responder-wins), aggregate NOT_HANDLED when no
module handles it.  Also returns the indices of the modules consulted, in
order. -/
def handleAdminMessageForAllPlugins (mp : MeshPacket)
    (request response : AdminMessage) :
    List MeshPlugin → AdminMessageHandleResult × List Nat
  | [] => (AdminMessageHandleResult.NOT_HANDLED, [])
  | m :: rest =>
    match m.handleAdminMessageForModule mp request response with
    | AdminMessageHandleResult.NOT_HANDLED =>
      let r := handleAdminMessageForAllPlugins mp request response rest
      (r.1, 0 :: r.2.map (· + 1))
    | r => (r, [0])


/-! Concrete modules, packets and registries instantiating the scenarios of
spec section 8; used to evaluate the dispatcher on closed inputs. -/

/-- A concrete environment: this node is 42, channel 0 is named Primary and
every other channel Secondary, and the next fresh packet id is 99. -/
def exampleEnv : DispatchEnv :=
  { ourNode := 42, channelName := fun i => if i == 0 then "Primary" else "Secondary",
    freshId := 99 }

/-- A promiscuous passive observer that wants every packet and keeps the
default (no-op) handlers. -/
def passiveLogger : MeshPlugin :=
  { name := "PassiveLogger", isPromiscuous := true, wantPacket := fun _ => true }

/-- The payload packet a text module leaves in its pending-reply field. -/
def textReplyPacket : MeshPacket :=
  { «to» := 0, «from» := 0, id := 5, channel := 0, portnum := 1,
    want_response := false, want_ack := false, encrypted := false, payload := 77 }

/-- A text handler bound to port 1 whose handleReceived records a pending
reply and continues the chain. -/
def textHandler : MeshPlugin :=
  { name := "TextHandler",
    wantPacket := fun p => p.portnum == 1,
    handleReceivedImpl := some (fun st _ =>
      ({ st with myReply := some textReplyPacket }, ProcessMessage.CONTINUE)) }

/-- An inbound text request: port 1, addressed to this node, sent reliably,
asking for a response. -/
def textRequest : MeshPacket :=
  { «to» := 42, «from» := 7, id := 10, channel := 0, portnum := 1,
    want_response := true, want_ack := true, encrypted := false, payload := 3 }

/-- Registry of the first scenario of spec section 8. -/
def registry0 : List (MeshPlugin × ModState) := [(passiveLogger, {}), (textHandler, {})]

/-- A text handler bound to the Secondary channel, loopback-enabled. -/
def boundTextHandler : MeshPlugin :=
  { name := "BoundTextHandler", loopbackOk := true,
    boundChannel := some "Secondary",
    wantPacket := fun p => p.portnum == 1 }

/-- Registry of the bound-channel scenario of spec section 8. -/
def registry1 : List (MeshPlugin × ModState) := [(passiveLogger, {}), (boundTextHandler, {})]

/-- A module that claims every packet exclusively by returning STOP. -/
def stopperModule : MeshPlugin :=
  { name := "Stopper", wantPacket := fun _ => true,
    handleReceivedImpl := some (fun st _ => (st, ProcessMessage.STOP)) }

/-- Registry with a STOP module in the middle of the chain. -/
def registry2 : List (MeshPlugin × ModState) :=
  [(passiveLogger, {}), (stopperModule, {}), (textHandler, {})]

/-- An admin-capable module that leaves every admin request unhandled. -/
def adminA : MeshPlugin := { name := "A", wantPacket := fun _ => true }

/-- An admin-capable module that handles every admin request and prepares a
response. -/
def adminB : MeshPlugin :=
  { name := "B", wantPacket := fun _ => true,
    handleAdminMessageForModuleImpl := some (fun _ _ _ =>
      AdminMessageHandleResult.HANDLED_WITH_RESPONSE) }

/-- An admin-capable module that handles every admin request without a
response; placed after adminB it must never be consulted. -/
def adminC : MeshPlugin :=
  { name := "C", wantPacket := fun _ => true,
    handleAdminMessageForModuleImpl := some (fun _ _ _ =>
      AdminMessageHandleResult.HANDLED) }

/-! Helper lemmas about the dispatch chain. -/

/-- The reply step never changes the handleReceived trace. -/
theorem replyStep_invoked (env : DispatchEnv) (mp : MeshPacket) (o : ChainOut) :
    (replyStep env mp o).invoked = o.invoked := by
  unfold replyStep
  repeat' split
  all_goals rfl

/-- callPlugins dispatches with the trace produced by the dispatch loop. -/
theorem callPlugins_invoked (env : DispatchEnv) (mods : List (MeshPlugin × ModState))
    (mp : MeshPacket) (src : RxSource) :
    (callPlugins env mods mp src).invoked = (runChain env mp src mods).invoked :=
  replyStep_invoked env mp (runChain env mp src mods)

/-- Every index in the handleReceived trace points at a registered module
that the acceptance policy accepted. -/
theorem mem_invoked_accepted (env : DispatchEnv) (p : MeshPacket) (src : RxSource) :
    ∀ (l : List (MeshPlugin × ModState)) (i : Nat),
      i ∈ (runChain env p src l).invoked →
      ∃ m st, l.get? i = some (m, st) ∧ moduleAccepts env m p src = true
  | [], i, hi => by simp [runChain] at hi
  | (m, st) :: rest, i, hi => by
    by_cases ha : moduleAccepts env m p src
    · by_cases hs : (m.handleReceived st p).2 = ProcessMessage.STOP
      · simp only [runChain, ha, if_true, hs] at hi
        simp only [List.mem_singleton] at hi
        subst hi
        exact ⟨m, st, rfl, ha⟩
      · simp only [runChain, ha, if_true, hs, if_false] at hi
        rcases List.mem_cons.mp hi with h0 | hmem
        · subst h0
          exact ⟨m, st, rfl, ha⟩
        · rcases List.mem_map.mp hmem with ⟨k, hk, hki⟩
          rcases mem_invoked_accepted env p src rest k hk with ⟨m', st', hget, hacc⟩
          exact ⟨m', st', by simpa [← hki] using hget, hacc⟩
    · simp only [runChain, ha, if_false] at hi
      rcases List.mem_map.mp hi with ⟨k, hk, hki⟩
      rcases mem_invoked_accepted env p src rest k hk with ⟨m', st', hget, hacc⟩
      exact ⟨m', st', by simpa [← hki] using hget, hacc⟩

/-- A module whose handleReceived is not overridden runs the header default
body: it returns CONTINUE and leaves the state untouched. -/
theorem handleReceived_default (m : MeshPlugin) (hdef : m.handleReceivedImpl = none)
    (st : ModState) (mp : MeshPacket) :
    m.handleReceived st mp = (st, ProcessMessage.CONTINUE) := by
  simp [MeshPlugin.handleReceived, hdef]

/-- When the dispatch loop reports a stopper, that module was invoked, no
later module was invoked, and its handleReceived on its registry state
returned STOP. -/
theorem stopper_spec (env : DispatchEnv) (p : MeshPacket) (src : RxSource) :
    ∀ (l : List (MeshPlugin × ModState)) (j : Nat),
      (runChain env p src l).stopper = some j →
      j ∈ (runChain env p src l).invoked ∧
      (∀ i ∈ (runChain env p src l).invoked, i ≤ j) ∧
      ∃ m st, l.get? j = some (m, st) ∧ moduleAccepts env m p src = true ∧
        (m.handleReceived st p).2 = ProcessMessage.STOP
  | [], j, h => by simp [runChain] at h
  | (m, st) :: rest, j, h => by
    by_cases ha : moduleAccepts env m p src
    · by_cases hs : (m.handleReceived st p).2 = ProcessMessage.STOP
      · simp only [runChain, ha, if_true, hs] at h ⊢
        obtain rfl : j = 0 := by simpa using h.symm
        refine ⟨by simp, by simp, m, st, rfl, ha, hs⟩
      · simp only [runChain, ha, if_true, hs, if_false] at h ⊢
        rcases Option.map_eq_some'.mp h with ⟨k, hk, rfl⟩
        rcases stopper_spec env p src rest k hk with ⟨hm, hb, m', st', hget, hacc, hstp⟩
        refine ⟨List.mem_cons_of_mem _ (List.mem_map.mpr ⟨k, hm, rfl⟩), ?_,
          m', st', by simpa using hget, hacc, hstp⟩
        intro i hi
        rcases List.mem_cons.mp hi with h0 | hmem
        · omega
        · rcases List.mem_map.mp hmem with ⟨t, ht, rfl⟩
          exact Nat.succ_le_succ (hb t ht)
    · simp only [runChain, ha, if_false] at h ⊢
      rcases Option.map_eq_some'.mp h with ⟨k, hk, rfl⟩
      rcases stopper_spec env p src rest k hk with ⟨hm, hb, m', st', hget, hacc, hstp⟩
      refine ⟨List.mem_map.mpr ⟨k, hm, rfl⟩, ?_, m', st', by simpa using hget, hacc, hstp⟩
      intro i hi
      rcases List.mem_map.mp hi with ⟨t, ht, rfl⟩
      exact Nat.succ_le_succ (hb t ht)

/-- The module the reply protocol would use had its handleReceived invoked. -/
theorem lastHandler_mem_invoked (env : DispatchEnv) (p : MeshPacket) (src : RxSource) :
    ∀ (l : List (MeshPlugin × ModState)) (j : Nat),
      (runChain env p src l).lastHandler = some j →
      j ∈ (runChain env p src l).invoked
  | [], j, h => by simp [runChain] at h
  | (m, st) :: rest, j, h => by
    by_cases ha : moduleAccepts env m p src
    · by_cases hs : (m.handleReceived st p).2 = ProcessMessage.STOP
      · simp only [runChain, ha, if_true, hs] at h ⊢
        obtain rfl : j = 0 := by simpa using h.symm
        simp
      · simp only [runChain, ha, if_true, hs, if_false] at h ⊢
        obtain rfl : ((runChain env p src rest).lastHandler.map (· + 1)).getD 0 = j := by
          simpa using h
        cases hl : (runChain env p src rest).lastHandler with
        | none => simp [hl]
        | some k =>
          have hk := lastHandler_mem_invoked env p src rest k hl
          simp only [hl, Option.map_some', Option.getD_some]
          exact List.mem_cons_of_mem _ (List.mem_map.mpr ⟨k, hk, rfl⟩)
    · simp only [runChain, ha, if_false] at h ⊢
      rcases Option.map_eq_some'.mp h with ⟨k, hk, rfl⟩
      exact List.mem_map.mpr ⟨k, lastHandler_mem_invoked env p src rest k hk, rfl⟩

/-- A module that keeps the default handleReceived neither changes its
registry state during the chain nor stops the chain. -/
theorem default_handler_chain (env : DispatchEnv) (p : MeshPacket) (src : RxSource) :
    ∀ (l : List (MeshPlugin × ModState)) (j : Nat) (m : MeshPlugin) (st : ModState),
      l.get? j = some (m, st) → m.handleReceivedImpl = none →
      (runChain env p src l).registry.get? j = some (m, st) ∧
      (runChain env p src l).stopper ≠ some j
  | [], j, m, st, hget, _ => by simp at hget
  | (m0, st0) :: rest, j, m, st, hget, hdef => by
    cases j with
    | zero =>
      have h0 : some (m0, st0) = some (m, st) := hget
      injection h0 with h1
      injection h1 with hm hst1
      subst hm
      subst hst1
      by_cases ha : moduleAccepts env m0 p src
      · have hc := handleReceived_default m0 hdef st0 p
        have hs : ¬((m0.handleReceived st0 p).2 = ProcessMessage.STOP) := by
          rw [hc]
          simp
        simp only [runChain, ha, if_true, hs, if_false]
        refine ⟨by simp [hc], ?_⟩
        cases hst2 : (runChain env p src rest).stopper <;> simp
      · simp only [runChain, ha, if_false]
        refine ⟨by simp, ?_⟩
        cases hst2 : (runChain env p src rest).stopper <;> simp
    | succ k =>
      have hrest : rest.get? k = some (m, st) := hget
      by_cases ha : moduleAccepts env m0 p src
      · by_cases hs : (m0.handleReceived st0 p).2 = ProcessMessage.STOP
        · simp only [runChain, ha, if_true, hs]
          exact ⟨hrest, by simp⟩
        · have ih := default_handler_chain env p src rest k m st hrest hdef
          simp only [runChain, ha, if_true, hs, if_false]
          refine ⟨by simpa using ih.1, ?_⟩
          cases hst : (runChain env p src rest).stopper with
          | none => simp
          | some t =>
            have : t ≠ k := fun h => ih.2 (by rw [hst, h])
            simp [this]
      · have ih := default_handler_chain env p src rest k m st hrest hdef
        simp only [runChain, ha, if_false]
        refine ⟨by simpa using ih.1, ?_⟩
        cases hst : (runChain env p src rest).stopper with
        | none => simp
        | some t =>
          have : t ≠ k := fun h => ih.2 (by rw [hst, h])
          simp [this]

/-- With an empty Current Reply slot, sendResponse emits at most one packet,
and any packet it emits is addressed back to the request's source with the
request's reliability flag. -/
theorem sendResponse_none_spec (m : MeshPlugin) (env : DispatchEnv) (st : ModState)
    (req : MeshPacket) :
    (m.sendResponse env st none req).1.toList.length ≤ 1 ∧
    ∀ r ∈ (m.sendResponse env st none req).1.toList,
      r.«to» = req.«from» ∧ r.want_ack = req.want_ack := by
  unfold MeshPlugin.sendResponse
  cases m.allocReply st <;> simp [setReplyTo]

/-- The reply step consults allocReply only on the chain's last handler. -/
theorem allocReplyCalled_eq_lastHandler (env : DispatchEnv) (mp : MeshPacket)
    (o : ChainOut) :
    ∀ j ∈ (replyStep env mp o).allocReplyCalled, o.lastHandler = some j := by
  intro j hj
  unfold replyStep at hj
  split at hj
  · split at hj
    · split at hj
      · simp only [List.mem_singleton] at hj
        subst hj
        assumption
      · simp at hj
    · simp at hj
  · simp at hj

/-- The reply step consults allocReply only for a packet that wants a
response. -/
theorem replyStep_wantResponse (env : DispatchEnv) (mp : MeshPacket) (o : ChainOut)
    (h : (replyStep env mp o).allocReplyCalled ≠ []) : mp.want_response = true := by
  unfold replyStep at h
  split at h
  · assumption
  · simp at h

/-- The reply step emits at most one reply, and any emitted reply is
addressed to the request's source with the request's reliability flag. -/
theorem replyStep_replies_spec (env : DispatchEnv) (mp : MeshPacket) (o : ChainOut) :
    (replyStep env mp o).replies.length ≤ 1 ∧
    ∀ r ∈ (replyStep env mp o).replies,
      r.«to» = mp.«from» ∧ r.want_ack = mp.want_ack := by
  unfold replyStep
  split
  · split
    · split
      · next m st _ =>
        exact sendResponse_none_spec m env st mp
      · simp
    · simp
  · simp

/-- A chain whose Current Reply slot is already occupied synthesizes no new
packet and keeps the existing reply. -/
theorem replyChain_some (env : DispatchEnv) (req : MeshPacket) (r : MeshPacket) :
    ∀ l : List (MeshPlugin × ModState), replyChain env req l (some r) = (some r, 0)
  | [] => rfl
  | (m, st) :: rest => by
    simp only [replyChain, MeshPlugin.sendResponse]
    simp [replyChain_some env req r rest]

/-- A chain starting from an empty Current Reply slot synthesizes at most one
reply packet. -/
theorem replyChain_none_le_one (env : DispatchEnv) (req : MeshPacket) :
    ∀ l : List (MeshPlugin × ModState), (replyChain env req l none).2 ≤ 1
  | [] => by simp [replyChain]
  | (m, st) :: rest => by
    cases hr : m.allocReply st with
    | none =>
      simp only [replyChain, MeshPlugin.sendResponse, hr]
      simpa using replyChain_none_le_one env req rest
    | some q =>
      simp only [replyChain, MeshPlugin.sendResponse, hr]
      simp [replyChain_some]

/-- Channel binding with no local-interface exemption: under a radio source a
bound-channel mismatch makes the acceptance policy reject the module. -/
theorem moduleAccepts_radio_mismatch (env : DispatchEnv) (m : MeshPlugin)
    (p : MeshPacket) (hmis : channelMismatch env m p = true) :
    moduleAccepts env m p RxSource.RX_SRC_RADIO = false := by
  have hsrc : ( RxSource.RX_SRC_RADIO == RxSource.RX_SRC_LOCAL) = false := by decide
  simp [moduleAccepts, hmis, hsrc]

/-- The loopback-acceptance field is irrelevant to a radio-originated packet:
the loopback rule only gates the local path. -/
theorem moduleAccepts_radio_loopback_irrelevant (env : DispatchEnv) (m : MeshPlugin)
    (p : MeshPacket) (b : Bool) :
    moduleAccepts env { m with loopbackOk := b } p RxSource.RX_SRC_RADIO =
      moduleAccepts env m p RxSource.RX_SRC_RADIO := by
  have hsrc : ( RxSource.RX_SRC_RADIO == RxSource.RX_SRC_LOCAL) = false := by decide
  simp [moduleAccepts, hsrc, channelMismatch, addressedToUs]

/-- First-responder aggregation of the admin dispatcher: with every module
before index j declining, the module at j that handles the request fixes the
aggregate result and no later module is consulted. -/
theorem admin_first_responder (mp : MeshPacket) (request response : AdminMessage) :
    ∀ (mods : List MeshPlugin) (j : Nat) (m : MeshPlugin),
      mods.get? j = some m →
      ((mods.take j).all fun mi =>
        mi.handleAdminMessageForModule mp request response ==
          AdminMessageHandleResult.NOT_HANDLED) = true →
      m.handleAdminMessageForModule mp request response ≠
        AdminMessageHandleResult.NOT_HANDLED →
      (handleAdminMessageForAllPlugins mp request response mods).1 =
        m.handleAdminMessageForModule mp request response ∧
      ∀ i ∈ (handleAdminMessageForAllPlugins mp request response mods).2, i ≤ j
  | [], j, m, hget, _, _ => by simp at hget
  | m0 :: rest, j, m, hget, hbefore, hm => by
    cases j with
    | zero =>
      have h0 : some m0 = some m := hget
      injection h0 with h1
      subst h1
      cases hr : m0.handleAdminMessageForModule mp request response with
      | NOT_HANDLED => exact absurd hr hm
      | HANDLED =>
        simp [handleAdminMessageForAllPlugins, hr]
      | HANDLED_WITH_RESPONSE =>
        simp [handleAdminMessageForAllPlugins, hr]
    | succ k =>
      have hrest : rest.get? k = some m := hget
      have hb0 : m0.handleAdminMessageForModule mp request response =
          AdminMessageHandleResult.NOT_HANDLED := by
        have : (List.take (k + 1) (m0 :: rest)).all (fun mi =>
            mi.handleAdminMessageForModule mp request response ==
              AdminMessageHandleResult.NOT_HANDLED) = true := hbefore
        simp only [List.take_succ_cons, List.all_cons, Bool.and_eq_true, beq_iff_eq] at this
        exact this.1
      have hbrest : ((rest.take k).all fun mi =>
          mi.handleAdminMessageForModule mp request response ==
            AdminMessageHandleResult.NOT_HANDLED) = true := by
        have : (List.take (k + 1) (m0 :: rest)).all (fun mi =>
            mi.handleAdminMessageForModule mp request response ==
              AdminMessageHandleResult.NOT_HANDLED) = true := hbefore
        simp only [List.take_succ_cons, List.all_cons, Bool.and_eq_true] at this
        exact this.2
      have ih := admin_first_responder mp request response rest k m hrest hbrest hm
      simp only [handleAdminMessageForAllPlugins, hb0]
      refine ⟨ih.1, ?_⟩
      intro i hi
      simp only [List.mem_cons] at hi
      rcases hi with rfl | hi
      · omega
      · rcases List.mem_map.mp hi with ⟨t, ht, rfl⟩
        exact Nat.succ_le_succ (ih.2 t ht)

/-- When every registered module declines an admin request the aggregate
result is NOT_HANDLED. -/
theorem admin_all_not_handled (mp : MeshPacket) (request response : AdminMessage) :
    ∀ mods : List MeshPlugin,
      (mods.all fun mi =>
        mi.handleAdminMessageForModule mp request response ==
          AdminMessageHandleResult.NOT_HANDLED) = true →
      (handleAdminMessageForAllPlugins mp request response mods).1 =
        AdminMessageHandleResult.NOT_HANDLED
  | [], _ => rfl
  | m0 :: rest, hall => by
    simp only [List.all_cons, Bool.and_eq_true, beq_iff_eq] at hall
    simp only [handleAdminMessageForAllPlugins, hall.1]
    exact admin_all_not_handled mp request response rest (by
      simp only [List.all_eq_true]
      intro mi hmi
      have := List.all_eq_true.mp hall.2 mi hmi
      exact this)

/-! Claim theorems. -/

/-- C1: for every packet and every registered module, if wantPacket is false
or any acceptance-policy rule (loopback, encryption, channel binding,
promiscuity) rejects the pair, callPlugins never invokes that module's
handleReceived for the packet. -/
theorem C1_rejected_module_never_invoked (env : DispatchEnv)
    (mods : List (MeshPlugin × ModState)) (mp : MeshPacket) (src : RxSource)
    (i : Nat) (m : MeshPlugin) (st : ModState)
    (hget : mods.get? i = some (m, st))
    (hrej : moduleAccepts env m mp src = false) :
    i ∉ (callPlugins env mods mp src).invoked := by
  rw [callPlugins_invoked]
  intro hi
  rcases mem_invoked_accepted env mp src mods i hi with ⟨m', st', hget', hacc⟩
  rw [hget] at hget'
  injection hget' with h1
  injection h1 with hm hst
  subst hm
  exact absurd hacc (by simp [hrej])

/-- C1 witness: the bound-channel text handler in registry slot 1 is rejected
for a radio packet arriving on a mismatched channel, so its handleReceived
never runs. -/
theorem C1_witness :
    moduleAccepts exampleEnv boundTextHandler textRequest RxSource.RX_SRC_RADIO = false ∧
    1 ∉ (callPlugins exampleEnv registry1 textRequest RxSource.RX_SRC_RADIO).invoked :=
  ⟨by decide, C1_rejected_module_never_invoked exampleEnv registry1 textRequest
    RxSource.RX_SRC_RADIO 1 boundTextHandler {} rfl (by decide)⟩

/-- C2: once an accepted module's handleReceived returns STOP, no module
registered after it in the registry is invoked for that packet; the stopper
itself was invoked, was accepted, and returned STOP on its registry state. -/
theorem C2_stop_terminates_chain (env : DispatchEnv)
    (mods : List (MeshPlugin × ModState)) (mp : MeshPacket) (src : RxSource)
    (j : Nat) (hstop : (runChain env mp src mods).stopper = some j) :
    (∀ i ∈ (callPlugins env mods mp src).invoked, i ≤ j) ∧
    j ∈ (callPlugins env mods mp src).invoked ∧
    ∃ m st, mods.get? j = some (m, st) ∧ moduleAccepts env m mp src = true ∧
      (m.handleReceived st mp).2 = ProcessMessage.STOP := by
  rcases stopper_spec env mp src mods j hstop with ⟨hmem, hb, hex⟩
  rw [callPlugins_invoked]
  exact ⟨hb, hmem, hex⟩

/-- C2 witness: in a registry whose middle module stops the chain, every
invocation happens at or before the stopper's slot. -/
theorem C2_witness :
    (runChain exampleEnv textRequest RxSource.RX_SRC_RADIO registry2).stopper = some 1 ∧
    ∀ i ∈ (callPlugins exampleEnv registry2 textRequest RxSource.RX_SRC_RADIO).invoked,
      i ≤ 1 :=
  ⟨by decide, (C2_stop_terminates_chain exampleEnv registry2 textRequest
    RxSource.RX_SRC_RADIO 1 (by decide)).1⟩

/-- C3: for a packet with wantResponse set that the chain fully handles, at
most one reply packet is produced and sent, and every sent reply's
destination equals the request's source while its reliability flag equals the
request's reliability flag. -/
theorem C3_single_reply_addressing (env : DispatchEnv)
    (mods : List (MeshPlugin × ModState)) (mp : MeshPacket) (src : RxSource)
    (_hwr : mp.want_response = true) :
    (callPlugins env mods mp src).replies.length ≤ 1 ∧
    ∀ r ∈ (callPlugins env mods mp src).replies,
      r.«to» = mp.«from» ∧ r.want_ack = mp.want_ack :=
  replyStep_replies_spec env mp (runChain env mp src mods)

/-- C3 witness: the section-8 scenario sends exactly one reply, addressed to
the request's source with its reliability flag. -/
theorem C3_witness :
    textRequest.want_response = true ∧
    (callPlugins exampleEnv registry0 textRequest RxSource.RX_SRC_RADIO).replies.length ≤ 1 ∧
    ∀ r ∈ (callPlugins exampleEnv registry0 textRequest RxSource.RX_SRC_RADIO).replies,
      r.«to» = textRequest.«from» ∧ r.want_ack = textRequest.want_ack :=
  ⟨rfl, C3_single_reply_addressing exampleEnv registry0 textRequest
    RxSource.RX_SRC_RADIO rfl⟩

/-- C4: a module with a bound channel and a mismatching packet channel is
still considered for a locally originated packet (the local-interface
exemption) whenever the remaining acceptance rules pass, while for a
radio-originated packet the mismatch is a skip: the module's handleReceived
is never invoked. -/
theorem C4_local_interface_exemption (env : DispatchEnv) (m : MeshPlugin)
    (p : MeshPacket) (hmis : channelMismatch env m p = true) :
    (m.loopbackOk = true → (p.encrypted && !m.encryptedOk) = false →
      (!(addressedToUs env p) && !m.isPromiscuous) = false →
      m.wantPacket p = true →
      moduleAccepts env m p RxSource.RX_SRC_LOCAL = true) ∧
    moduleAccepts env m p RxSource.RX_SRC_RADIO = false ∧
    ∀ (mods : List (MeshPlugin × ModState)) (i : Nat) (st : ModState),
      mods.get? i = some (m, st) →
      i ∉ (callPlugins env mods p RxSource.RX_SRC_RADIO).invoked := by
  have hradio := moduleAccepts_radio_mismatch env m p hmis
  refine ⟨?_, hradio, ?_⟩
  · intro hlb henc haddr hwant
    simp [moduleAccepts, hlb, henc, haddr, hwant]
  · intro mods i st hget hi
    rw [callPlugins_invoked] at hi
    rcases mem_invoked_accepted env p RxSource.RX_SRC_RADIO mods i hi with
      ⟨m', st', hget', hacc⟩
    rw [hget] at hget'
    injection hget' with h1
    injection h1 with hm hst
    subst hm
    exact absurd hacc (by simp [hradio])

/-- C4 witness: the bound-channel handler accepts the mismatched request over
the local interface but is skipped for the same request over radio. -/
theorem C4_witness :
    channelMismatch exampleEnv boundTextHandler textRequest = true ∧
    moduleAccepts exampleEnv boundTextHandler textRequest RxSource.RX_SRC_LOCAL = true ∧
    moduleAccepts exampleEnv boundTextHandler textRequest RxSource.RX_SRC_RADIO = false ∧
    1 ∉ (callPlugins exampleEnv registry1 textRequest RxSource.RX_SRC_RADIO).invoked := by
  refine ⟨by decide, ?_, ?_, ?_⟩
  · exact (C4_local_interface_exemption exampleEnv boundTextHandler textRequest
      (by decide)).1 (by decide) (by decide) (by decide) (by decide)
  · exact (C4_local_interface_exemption exampleEnv boundTextHandler textRequest
      (by decide)).2.1
  · exact (C4_local_interface_exemption exampleEnv boundTextHandler textRequest
      (by decide)).2.2 registry1 1 {} rfl

/-- C5: handleAdminMessageForAllPlugins iterates the registry in registration
order and stops at the first module whose handleAdminMessageForModule returns
HANDLED or HANDLED_WITH_RESPONSE: that module's result is the aggregate
result and no later module is consulted; when every module returns
NOT_HANDLED the aggregate result is NOT_HANDLED. -/
theorem C5_admin_first_responder_wins (mp : MeshPacket)
    (request response : AdminMessage) (mods : List MeshPlugin) :
    (∀ (j : Nat) (m : MeshPlugin),
      mods.get? j = some m →
      ((mods.take j).all fun mi =>
        mi.handleAdminMessageForModule mp request response ==
          AdminMessageHandleResult.NOT_HANDLED) = true →
      m.handleAdminMessageForModule mp request response ≠
        AdminMessageHandleResult.NOT_HANDLED →
      (handleAdminMessageForAllPlugins mp request response mods).1 =
        m.handleAdminMessageForModule mp request response ∧
      ∀ i ∈ (handleAdminMessageForAllPlugins mp request response mods).2, i ≤ j) ∧
    ((mods.all fun mi =>
        mi.handleAdminMessageForModule mp request response ==
          AdminMessageHandleResult.NOT_HANDLED) = true →
      (handleAdminMessageForAllPlugins mp request response mods).1 =
        AdminMessageHandleResult.NOT_HANDLED) :=
  ⟨fun j m hget hb hm => admin_first_responder mp request response mods j m hget hb hm,
   fun hall => admin_all_not_handled mp request response mods hall⟩

/-- C5 witness: with module A declining, module B handling with a response
and module C never reached, the aggregate is HANDLED_WITH_RESPONSE and no
module after slot 1 is consulted; a registry of decliners aggregates to
NOT_HANDLED. -/
theorem C5_witness :
    (handleAdminMessageForAllPlugins textRequest {} {} [adminA, adminB, adminC]).1 =
      AdminMessageHandleResult.HANDLED_WITH_RESPONSE ∧
    (∀ i ∈ (handleAdminMessageForAllPlugins textRequest {} {} [adminA, adminB, adminC]).2,
      i ≤ 1) ∧
    (handleAdminMessageForAllPlugins textRequest {} {} [adminA]).1 =
      AdminMessageHandleResult.NOT_HANDLED := by
  have h := (C5_admin_first_responder_wins textRequest {} {} [adminA, adminB, adminC]).1
    1 adminB rfl (by decide) (by decide)
  exact ⟨h.1.trans rfl, h.2,
    (C5_admin_first_responder_wins textRequest {} {} [adminA]).2 (by decide)⟩

/-- C6: within a single dispatch chain, once Current Reply holds a packet
produced by an earlier module, no second (redundant) ack/nak packet is
synthesized later in the chain and the existing reply is the one sent; a
chain starting with the slot empty fills it with at most one synthesized
reply, so at most one reply slot is ever occupied per chain. -/
theorem C6_no_redundant_reply (env : DispatchEnv) (req : MeshPacket)
    (l : List (MeshPlugin × ModState)) (r : MeshPacket) :
    (∀ (m : MeshPlugin) (st : ModState),
      m.sendResponse env st (some r) req = (some r, false)) ∧
    replyChain env req l (some r) = (some r, 0) ∧
    (replyChain env req l none).2 ≤ 1 :=
  ⟨fun _ _ => rfl, replyChain_some env req r l, replyChain_none_le_one env req l⟩

/-- C7: allocReply is consulted only when the dispatched packet's
wantResponse flag is set and only for a module whose handleReceived ran in
that chain; the default allocReply returns the pending-reply field myReply
when handleReceived set one and none otherwise. -/
theorem C7_allocReply_discipline (env : DispatchEnv)
    (mods : List (MeshPlugin × ModState)) (mp : MeshPacket) (src : RxSource) :
    ((callPlugins env mods mp src).allocReplyCalled ≠ [] →
      mp.want_response = true) ∧
    (∀ j ∈ (callPlugins env mods mp src).allocReplyCalled,
      j ∈ (callPlugins env mods mp src).invoked) ∧
    ∀ (m : MeshPlugin) (st : ModState), m.allocReplyImpl = none →
      m.allocReply st = st.myReply := by
  refine ⟨replyStep_wantResponse env mp (runChain env mp src mods), ?_, ?_⟩
  · intro j hj
    have hlast := allocReplyCalled_eq_lastHandler env mp (runChain env mp src mods) j hj
    rw [callPlugins_invoked]
    exact lastHandler_mem_invoked env mp src mods j hlast
  · intro m st h
    simp [MeshPlugin.allocReply, h]

/-- C7 witness: in the section-8 scenario only the text handler's allocReply
is consulted, the request wants a response, and that handler's
handleReceived had run. -/
theorem C7_witness :
    (callPlugins exampleEnv registry0 textRequest RxSource.RX_SRC_RADIO).allocReplyCalled
      = [1] ∧
    textRequest.want_response = true ∧
    1 ∈ (callPlugins exampleEnv registry0 textRequest RxSource.RX_SRC_RADIO).invoked := by
  refine ⟨by decide, ?_, ?_⟩
  · exact (C7_allocReply_discipline exampleEnv registry0 textRequest
      RxSource.RX_SRC_RADIO).1 (by decide)
  · exact (C7_allocReply_discipline exampleEnv registry0 textRequest
      RxSource.RX_SRC_RADIO).2.1 1 (by decide)

/-- C8: GetMeshModulesWithUIFrames is the order-preserving filter of the
registry by wantUIFrame: the result is a sublist of the registry, no module
with wantUIFrame false appears in it, and no registered module with
wantUIFrame true is omitted. -/
theorem C8_ui_frames_filter (mods : List MeshPlugin) :
    List.Sublist (GetMeshModulesWithUIFrames mods) mods ∧
    ∀ m : MeshPlugin, m ∈ GetMeshModulesWithUIFrames mods ↔
      (m ∈ mods ∧ m.wantUIFrame = true) := by
  refine ⟨List.filter_sublist mods, ?_⟩
  intro m
  simp [GetMeshModulesWithUIFrames, List.mem_filter]

/-- C9: a module that does not override handleReceived runs the header
default: it returns CONTINUE with no side effect for every packet, so the
chain does not stop at it and its registry state is unchanged by the
dispatch. -/
theorem C9_default_handler_passthrough (env : DispatchEnv) (p : MeshPacket)
    (src : RxSource) (mods : List (MeshPlugin × ModState)) (j : Nat)
    (m : MeshPlugin) (st : ModState) (hget : mods.get? j = some (m, st))
    (hdef : m.handleReceivedImpl = none) :
    (∀ (st' : ModState) (mp' : MeshPacket),
      m.handleReceived st' mp' = (st', ProcessMessage.CONTINUE)) ∧
    (runChain env p src mods).registry.get? j = some (m, st) ∧
    (runChain env p src mods).stopper ≠ some j :=
  ⟨fun st' mp' => handleReceived_default m hdef st' mp',
    (default_handler_chain env p src mods j m st hget hdef).1,
    (default_handler_chain env p src mods j m st hget hdef).2⟩

/-- C9 witness: the passive logger keeps the default handleReceived; its
state survives the dispatch unchanged and it never stops the chain. -/
theorem C9_witness :
    passiveLogger.handleReceivedImpl = none ∧
    passiveLogger.handleReceived {} textRequest = ({}, ProcessMessage.CONTINUE) ∧
    (runChain exampleEnv textRequest RxSource.RX_SRC_RADIO registry0).registry.get? 0 =
      some (passiveLogger, {}) ∧
    (runChain exampleEnv textRequest RxSource.RX_SRC_RADIO registry0).stopper ≠ some 0 := by
  have h := C9_default_handler_passthrough exampleEnv textRequest RxSource.RX_SRC_RADIO
    registry0 0 passiveLogger {} rfl rfl
  exact ⟨rfl, h.1 {} textRequest, h.2.1, h.2.2⟩

/-- C10: invoking callPlugins without an explicit source argument dispatches
the packet as radio-originated, the header default RX_SRC_RADIO: channel
binding applies with no local-interface exemption, and the loopback gate of
the local delivery path has no effect on the outcome. -/
theorem C10_default_source_is_radio (env : DispatchEnv)
    (mods : List (MeshPlugin × ModState)) (mp : MeshPacket) :
    callPluginsDefault env mods mp = callPlugins env mods mp RxSource.RX_SRC_RADIO ∧
    (∀ (m : MeshPlugin) (p : MeshPacket), channelMismatch env m p = true →
      moduleAccepts env m p RxSource.RX_SRC_RADIO = false) ∧
    ∀ (m : MeshPlugin) (p : MeshPacket) (b : Bool),
      moduleAccepts env { m with loopbackOk := b } p RxSource.RX_SRC_RADIO =
        moduleAccepts env m p RxSource.RX_SRC_RADIO :=
  ⟨rfl, fun m p h => moduleAccepts_radio_mismatch env m p h,
    fun m p b => moduleAccepts_radio_loopback_irrelevant env m p b⟩

/-- C10 witness: dispatching without a source equals dispatching with
RX_SRC_RADIO, under which the mismatched bound-channel module is rejected. -/
theorem C10_witness :
    callPluginsDefault exampleEnv registry1 textRequest =
      callPlugins exampleEnv registry1 textRequest RxSource.RX_SRC_RADIO ∧
    moduleAccepts exampleEnv boundTextHandler textRequest RxSource.RX_SRC_RADIO = false :=
  ⟨(C10_default_source_is_radio exampleEnv registry1 textRequest).1,
    (C10_default_source_is_radio exampleEnv registry1 textRequest).2.1 boundTextHandler
      textRequest (by decide)⟩
